import Mathlib

/-!
Verification of the NINE mesh-messaging core (NINE-Dekstop) against its
natural-language specification.  The definitions below are shallow
embeddings of the TypeScript/JavaScript sources:

* `src/NINE-Dekstop/src/types/message.ts` — envelope data model;
* `src/NINE-Dekstop/src/services/messageStore.ts` — persistence and dedupe;
* `src/NINE-Dekstop/src/services/messageFactory.ts` — envelope construction;
* `src/NINE-Dekstop/src/services/meshNetwork.ts` — node relay;
* `src/NINE-Dekstop/src/services/e2eService.ts` — admin join;
* `src/NINE-Dekstop/electron/main.js` — hub relay and gateway ingress.

Cryptographic primitives (libsodium) are out of scope of the spec and are
modelled as an ideal functionality: a ciphertext remembers its plaintext and
session key, a wrapped key remembers the session key and the recipient
public key, and decryption succeeds exactly on matching keys.  Timestamps
(`new Date()`) are modelled as a `Nat` supplied by the caller of each step.
-/

/-- Message type tag, field `type` of `MessageEnvelope` in `message.ts`
(`'broadcast' | 'e2e'`). -/
inductive MsgType
  | broadcast
  | e2e
deriving DecidableEq

/-- Hop record `{nodeId, timestamp}` from `message.ts`. -/
structure Hop where
  nodeId : String
  timestamp : Nat
deriving DecidableEq

/-- Payload of a `MessageEnvelope`.  `raw` is an opaque string (plaintext of a
broadcast, or a ciphertext passed through untouched, e.g. by the gateway);
`cipher` is the ideal-functionality ciphertext produced by
`CryptoUtils.encryptMessage`: it records the plaintext and the session key,
and opens only with that session key. -/
inductive Payload
  | raw (s : String)
  | cipher (content : String) (sessionKey : Nat)
deriving DecidableEq

/-- Wrapped session key.  `raw` is an opaque string passed through untouched
(gateway path); `wrapped` is the ideal-functionality result of
`CryptoUtils.wrapSessionKey`: the session key sealed to a public key. -/
inductive WrappedKey
  | raw (s : String)
  | wrapped (sessionKey : Nat) (pubKey : Nat)
deriving DecidableEq

/-- `MessageEnvelope` from `message.ts`.  `from` and `to` are Lean keywords
or near-keywords, so the fields are written `from_` and `to_`. -/
structure MessageEnvelope where
  msg_id : String
  type : MsgType
  from_ : String
  to_ : String
  timestamp : Nat
  ttl : Int
  hops : List Hop
  payload : Payload
  meta : List (String × String)
deriving DecidableEq

/-- `KeyEnvelope` from `message.ts`. -/
structure KeyEnvelope where
  msg_id : String
  from_ : String
  to_ : String
  wrapped_key : WrappedKey
  algorithm : String
deriving DecidableEq

/-- `DecryptedMessage` from `message.ts`. -/
structure DecryptedMessage where
  msg_id : String
  content : String
  timestamp : Nat
  from_ : String
  meta : List (String × String)
  messagePath : List Hop
  keyPath : List Hop
deriving DecidableEq

/-- Ideal public key derived from a private key. -/
def pubOf (priv : Nat) : Nat := priv + 1

/-- `CryptoUtils.unwrapSessionKey`: succeeds exactly when the wrapped key was
sealed to this private key's public key. -/
def unwrapSessionKey (w : WrappedKey) (priv : Nat) : Option Nat :=
  match w with
  | .wrapped k pub => if pub = pubOf priv then some k else none
  | .raw _ => none

/-- `CryptoUtils.decryptMessage`: succeeds exactly when the session key
matches the one the ciphertext was sealed under. -/
def decryptPayload (p : Payload) (k : Nat) : Option String :=
  match p with
  | .cipher c k2 => if k2 = k then some c else none
  | .raw _ => none

/-- `MessageFactory.DEFAULT_TTL` (`messageFactory.ts`, line 6). -/
def DEFAULT_TTL : Int := 8

/-- `MessageFactory.createE2EMessageEnvelope` (`messageFactory.ts`, lines
32-54).  The caller supplies the fresh `msgId` (the source draws a UUID) and
the current time. -/
def createE2EMessageEnvelope (nodeId pseudoId : String) (now : Nat)
    (encryptedPayload : Payload) (meta : List (String × String))
    (msgId : String) : MessageEnvelope :=
  { msg_id := msgId
    type := .e2e
    from_ := pseudoId
    to_ := "admin"
    timestamp := now
    ttl := DEFAULT_TTL
    hops := [⟨nodeId, now⟩]
    payload := encryptedPayload
    meta := meta }

/-- `MessageFactory.createKeyEnvelope` (`messageFactory.ts`, lines 56-67). -/
def createKeyEnvelope (pseudoId : String) (msgId : String)
    (wrappedKey : WrappedKey) : KeyEnvelope :=
  { msg_id := msgId
    from_ := pseudoId
    to_ := "admin"
    wrapped_key := wrappedKey
    algorithm := "x25519+aes-256-gcm" }

/-- `MessageFactory.addHop` (`messageFactory.ts`, lines 69-83): copy the
envelope, decrement `ttl` by one, append this node's hop record. -/
def addHop (nodeId : String) (now : Nat) (envelope : MessageEnvelope) :
    MessageEnvelope :=
  { envelope with
    ttl := envelope.ttl - 1
    hops := envelope.hops ++ [⟨nodeId, now⟩] }

/-- `MessageStore.markAsProcessed` (`messageStore.ts`, lines 55-64), as a
function on the dedupe list: push the id if absent, then drop the head when
the length exceeds 1000. -/
def markAsProcessed (d : List String) (msgId : String) : List String :=
  if d.contains msgId then d
  else
    let d2 := d ++ [msgId]
    if d2.length > 1000 then d2.tail else d2

/-- State of one node: the `localStorage` collections of `MessageStore`
(`messageStore.ts`), the identity from `NodeIdGenerator`, the admin keys from
`AdminKeyStore`, and the `MeshNetwork` fields `peers` / `reconnectAttempts`
(`meshNetwork.ts`, lines 12-22). -/
structure NodeState where
  nodeId : String
  pseudoId : String
  isAdmin : Bool
  adminPub : Option Nat
  adminPriv : Option Nat
  broadcasts : List MessageEnvelope
  messageMesh : List MessageEnvelope
  keyMesh : List KeyEnvelope
  decrypted : List DecryptedMessage
  dedupe : List String
  peers : List String
  reconnectAttempts : Nat
deriving DecidableEq

/-- `MessageStore.isDuplicate` (`messageStore.ts`, lines 50-53). -/
def isDuplicate (s : NodeState) (msgId : String) : Bool :=
  s.dedupe.contains msgId

/-- `MessageStore.saveMessageEnvelope` (`messageStore.ts`, lines 20-24). -/
def saveMessageEnvelope (s : NodeState) (m : MessageEnvelope) : NodeState :=
  { s with messageMesh := s.messageMesh ++ [m] }

/-- `MessageStore.saveKeyEnvelope` (`messageStore.ts`, lines 30-34). -/
def saveKeyEnvelope (s : NodeState) (k : KeyEnvelope) : NodeState :=
  { s with keyMesh := s.keyMesh ++ [k] }

/-- `MessageStore.saveDecryptedMessage` (`messageStore.ts`, lines 40-44). -/
def saveDecryptedMessage (s : NodeState) (d : DecryptedMessage) : NodeState :=
  { s with decrypted := s.decrypted ++ [d] }

/-- `MessageStore.getMessageEnvelopeById` (`messageStore.ts`, lines
108-110): first stored envelope with this id. -/
def getMessageEnvelopeById (s : NodeState) (msgId : String) :
    Option MessageEnvelope :=
  s.messageMesh.find? (fun m => m.msg_id == msgId)

/-- `MessageStore.getKeyEnvelopeById` (`messageStore.ts`, lines 112-114). -/
def getKeyEnvelopeById (s : NodeState) (msgId : String) : Option KeyEnvelope :=
  s.keyMesh.find? (fun k => k.msg_id == msgId)

/-- `E2EService.tryDecryptMessage` (`e2eService.ts`, lines 63-118): look up
both stored envelopes for the id, check `type = e2e` and `to = admin`, unwrap
the session key with the admin private key, decrypt, and append the
`DecryptedMessage`.  Any failure leaves the state unchanged (the source logs
and returns).  There is no check against an already-stored `DecryptedMessage`
for the same id. -/
def tryDecryptMessage (s : NodeState) (now : Nat) (msgId : String) :
    NodeState :=
  match getMessageEnvelopeById s msgId, getKeyEnvelopeById s msgId with
  | some sm, some sk =>
    if sm.type = MsgType.e2e ∧ sk.to_ = "admin" then
      match s.adminPriv with
      | none => s
      | some priv =>
        match unwrapSessionKey sk.wrapped_key priv with
        | none => s
        | some sess =>
          match decryptPayload sm.payload sess with
          | none => s
          | some content =>
            saveDecryptedMessage s
              { msg_id := msgId
                content := content
                timestamp := sm.timestamp
                from_ := sm.from_
                meta := sm.meta
                messagePath := sm.hops
                keyPath := [⟨sk.from_, now⟩] }
    else s
  | _, _ => s

/-- The `E2EService` message listener (`e2eService.ts`, lines 19-23):
registered via `meshNetwork.onMessage`; attempts the join for `e2e` envelopes
when the node is in admin mode. -/
def e2eOnMessage (s : NodeState) (now : Nat) (m : MessageEnvelope) :
    NodeState :=
  if m.type = MsgType.e2e ∧ s.isAdmin = true then
    tryDecryptMessage s now m.msg_id
  else s

/-- The `E2EService` key listener (`e2eService.ts`, lines 25-29). -/
def e2eOnKey (s : NodeState) (now : Nat) (k : KeyEnvelope) : NodeState :=
  if s.isAdmin = true then tryDecryptMessage s now k.msg_id else s

/-- Observable actions of one node step: handler invocations (one event per
`forEach` dispatch over the registered handlers), frames written to the hub,
peer-lost notifications and reconnect timers. -/
inductive NodeEvent
  | msgDelivered (m : MessageEnvelope)
  | keyDelivered (k : KeyEnvelope)
  | sendMesh (m : MessageEnvelope)
  | sendKeyMesh (k : KeyEnvelope)
  | peerLost (p : String)
  | scheduleReconnect (delayMs : Nat)
deriving DecidableEq

/-- `MeshNetwork.handleMessageEnvelope` (`meshNetwork.ts`, lines 145-158):
drop duplicates, mark, save, fire the message handlers (the admin join
listener runs here), and — while the received `ttl` is positive — re-emit
`addHop(message)` to the hub (`forwardMessageEnvelope`, lines 174-177). -/
def handleMessageEnvelope (s : NodeState) (now : Nat) (m : MessageEnvelope) :
    NodeState × List NodeEvent :=
  if isDuplicate s m.msg_id then (s, [])
  else
    let s1 := saveMessageEnvelope
      { s with dedupe := markAsProcessed s.dedupe m.msg_id } m
    let s2 := e2eOnMessage s1 now m
    let fwd := if 0 < m.ttl then [NodeEvent.sendMesh (addHop s.nodeId now m)]
               else []
    (s2, NodeEvent.msgDelivered m :: fwd)

/-- `MeshNetwork.handleKeyEnvelope` (`meshNetwork.ts`, lines 160-172): same
dedupe store as message envelopes, keyed on the shared `msg_id`; key
envelopes are never forwarded. -/
def handleKeyEnvelope (s : NodeState) (now : Nat) (k : KeyEnvelope) :
    NodeState × List NodeEvent :=
  if isDuplicate s k.msg_id then (s, [])
  else
    let s1 := saveKeyEnvelope
      { s with dedupe := markAsProcessed s.dedupe k.msg_id } k
    let s2 := e2eOnKey s1 now k
    (s2, [NodeEvent.keyDelivered k])

/-- `MeshNetwork.broadcastMessage` (`meshNetwork.ts`, lines 179-183): save,
fire handlers, emit to the hub.  The dedupe store is not touched. -/
def broadcastMessage (s : NodeState) (now : Nat) (m : MessageEnvelope) :
    NodeState × List NodeEvent :=
  let s1 := saveMessageEnvelope s m
  let s2 := e2eOnMessage s1 now m
  (s2, [NodeEvent.msgDelivered m, NodeEvent.sendMesh m])

/-- `MeshNetwork.broadcastKeyEnvelope` (`meshNetwork.ts`, lines 185-189). -/
def broadcastKeyEnvelope (s : NodeState) (now : Nat) (k : KeyEnvelope) :
    NodeState × List NodeEvent :=
  let s1 := saveKeyEnvelope s k
  let s2 := e2eOnKey s1 now k
  (s2, [NodeEvent.keyDelivered k, NodeEvent.sendKeyMesh k])

/-- `E2EService.createE2EMessage` (`e2eService.ts`, lines 32-61): build the
envelope pair, save both directly, then broadcast both.  Fails (returns the
state unchanged, mirroring the thrown error) when no admin public key is
known. -/
def createE2EMessage (s : NodeState) (now : Nat) (content : String)
    (meta : List (String × String)) (sessionKey : Nat) (msgId : String) :
    NodeState × List NodeEvent :=
  match s.adminPub with
  | none => (s, [])
  | some pub =>
    let env := createE2EMessageEnvelope s.nodeId s.pseudoId now
      (Payload.cipher content sessionKey) meta msgId
    let key := createKeyEnvelope s.pseudoId msgId
      (WrappedKey.wrapped sessionKey pub)
    let s1 := saveKeyEnvelope (saveMessageEnvelope s env) key
    let r2 := broadcastMessage s1 now env
    let r3 := broadcastKeyEnvelope r2.1 now key
    (r3.1, r2.2 ++ r3.2)

/-- `MeshNetwork.maxReconnectAttempts` (`meshNetwork.ts`, line 21). -/
def maxReconnectAttempts : Nat := 10

/-- `MeshNetwork.reconnectDelay` in milliseconds (`meshNetwork.ts`, line 22). -/
def reconnectDelay : Nat := 3000

/-- `ws.onclose` in `MeshNetwork.connectToServer` (`meshNetwork.ts`, lines
111-128), statement for statement: `this.peers.clear()`; then the peer-lost
handlers iterate `Array.from(this.peers)` — the set that was just cleared —
then `this.peers.clear()` again; finally a reconnect is scheduled after
`reconnectDelay` while fewer than `maxReconnectAttempts` attempts were
made. -/
def wsOnClose (s : NodeState) : NodeState × List NodeEvent :=
  let s1 := { s with peers := [] }
  let lost := s1.peers.map NodeEvent.peerLost
  let s2 := { s1 with peers := [] }
  if s2.reconnectAttempts < maxReconnectAttempts then
    ({ s2 with reconnectAttempts := s2.reconnectAttempts + 1 },
     lost ++ [NodeEvent.scheduleReconnect reconnectDelay])
  else (s2, lost)

/-- Inputs a node processes: inbound `mesh_message` hub frames
(`meshNetwork.ts`, lines 94-101) and local sends. -/
inductive NodeInput
  | recvMessage (m : MessageEnvelope)
  | recvKey (k : KeyEnvelope)
  | localBroadcast (m : MessageEnvelope)
  | localCreateE2E (content : String) (meta : List (String × String))
      (sessionKey : Nat) (msgId : String)

/-- Dispatch one input. -/
def nodeStep (s : NodeState) (now : Nat) (i : NodeInput) :
    NodeState × List NodeEvent :=
  match i with
  | .recvMessage m => handleMessageEnvelope s now m
  | .recvKey k => handleKeyEnvelope s now k
  | .localBroadcast m => broadcastMessage s now m
  | .localCreateE2E content meta sk mid => createE2EMessage s now content meta sk mid

/-- Run a node over a timed input trace, accumulating events. -/
def runNode (s : NodeState) (inputs : List (Nat × NodeInput)) :
    NodeState × List NodeEvent :=
  inputs.foldl
    (fun acc ti =>
      let r := nodeStep acc.1 ti.1 ti.2
      (r.1, acc.2 ++ r.2))
    (s, [])

/-- Number of times the message handlers were invoked with an envelope of the
given id in an event trace. -/
def deliveryCount (evts : List NodeEvent) (msgId : String) : Nat :=
  (evts.filter fun e =>
    match e with
    | .msgDelivered m => m.msg_id == msgId
    | _ => false).length

/-- Envelopes re-emitted to the hub (forwarded copies) in an event trace. -/
def sentMeshEnvs (evts : List NodeEvent) : List MessageEnvelope :=
  evts.filterMap fun e =>
    match e with
    | .sendMesh m => some m
    | _ => none

/-- One hub websocket session (`wss.on('connection')` in `electron/main.js`):
the socket's open state and the connection-scoped `peerId` variable (line
109), which holds the peer id sent by the most recent `register` frame. -/
structure Session where
  sid : Nat
  openFlag : Bool
  bound : Option String
deriving DecidableEq

/-- Hub state: the sessions and the `peers` map (`main.js`, line 20),
modelled as an association list with JS-`Map` semantics (insertion order,
in-place update on an existing key). -/
structure HubState where
  sessions : List Session
  peers : List (String × Nat)
deriving DecidableEq

/-- JS `Map.prototype.set`: update in place if the key exists, else append. -/
def mapSet (m : List (String × Nat)) (k : String) (v : Nat) :
    List (String × Nat) :=
  if m.any (fun pr => pr.1 == k) then
    m.map (fun pr => if pr.1 == k then (k, v) else pr)
  else m ++ [(k, v)]

/-- JS `Map.prototype.delete`. -/
def mapDelete (m : List (String × Nat)) (k : String) : List (String × Nat) :=
  m.filter (fun pr => pr.1 != k)

/-- JS `Map.prototype.get`. -/
def mapLookup (m : List (String × Nat)) (k : String) : Option Nat :=
  (m.find? (fun pr => pr.1 == k)).map (fun pr => pr.2)

def findSession (h : HubState) (sid : Nat) : Option Session :=
  h.sessions.find? (fun t => t.sid == sid)

/-- `ws.readyState === WebSocket.OPEN` for the session with this id. -/
def isOpenSid (h : HubState) (sid : Nat) : Bool :=
  match findSession h sid with
  | some t => t.openFlag
  | none => false

def boundOf (h : HubState) (sid : Nat) : Option String :=
  (findSession h sid).bind (fun t => t.bound)

def setBound (ss : List Session) (sid : Nat) (p : String) : List Session :=
  ss.map fun t => if t.sid == sid then { t with bound := some p } else t

def closeSession (ss : List Session) (sid : Nat) : List Session :=
  ss.map fun t => if t.sid == sid then { t with openFlag := false } else t

/-- Envelope carried by a `mesh_message` frame (a `KeyEnvelope` when the
frame's `envelopeType` is `"key"`). -/
inductive OutEnv
  | msg (m : MessageEnvelope)
  | key (k : KeyEnvelope)
deriving DecidableEq

/-- Frames the hub writes to a session. -/
inductive HubFrameOut
  | peerConnected (p : String)
  | peerDisconnected (p : String)
  | peerList (ps : List String)
  | meshMessage (env : OutEnv) (fromPeer : String) (envelopeType : Option String)
deriving DecidableEq

/-- A hub write: frame `f` sent to session `sid`. -/
inductive HubEvent
  | send (sid : Nat) (f : HubFrameOut)
deriving DecidableEq

/-- `broadcastToOthers` (`main.js`, lines 187-193): walk the `peers` map in
order and send to every entry whose peer id differs from the excluded one
and whose socket is open. -/
def broadcastToOthers (h : HubState) (excludePeerId : String)
    (f : HubFrameOut) : List HubEvent :=
  h.peers.filterMap fun pr =>
    if pr.1 ≠ excludePeerId ∧ isOpenSid h pr.2 = true then
      some (HubEvent.send pr.2 f)
    else none

/-- Frames a peer sends to the hub. -/
inductive PeerFrame
  | register (p : String)
  | meshMessage (env : OutEnv) (envelopeType : Option String)

/-- Hub inputs: a new connection, a frame from a session, a session close. -/
inductive HubInput
  | connect (sid : Nat)
  | frame (sid : Nat) (f : PeerFrame)
  | close (sid : Nat)

/-- One hub step (`wss.on('connection')` handlers, `main.js` lines 108-185).

`register` (lines 115-145): overwrite the connection-scoped `peerId`
variable, `peers.set(peerId, ws)`, broadcast `peer_connected` to the others,
send the `peer_list` of the other map keys back.  The source neither closes
a session previously bound to the same peer id nor rejects a second
`register` from an already-bound session.

`mesh_message` (lines 146-156): when the session has registered, fan the
frame out via `broadcastToOthers`, passing the envelope through unmodified.

`close` (lines 162-180): mark the socket closed; when the session had
registered, `peers.delete(peerId)` and broadcast `peer_disconnected`. -/
def hubStep (h : HubState) (inp : HubInput) : HubState × List HubEvent :=
  match inp with
  | .connect sid =>
    ({ h with sessions := h.sessions ++ [⟨sid, true, none⟩] }, [])
  | .frame sid f =>
    match findSession h sid with
    | none => (h, [])
    | some t =>
      if t.openFlag = false then (h, [])
      else
        match f with
        | .register p =>
          let h1 : HubState :=
            { sessions := setBound h.sessions sid p
              peers := mapSet h.peers p sid }
          let evts := broadcastToOthers h1 p (.peerConnected p)
          let existing := (h1.peers.map (fun pr => pr.1)).filter
            (fun q => q != p)
          (h1, evts ++ [.send sid (.peerList existing)])
        | .meshMessage env et =>
          match t.bound with
          | none => (h, [])
          | some p => (h, broadcastToOthers h p (.meshMessage env p et))
  | .close sid =>
    match findSession h sid with
    | none => (h, [])
    | some t =>
      let h1 : HubState := { h with sessions := closeSession h.sessions sid }
      match t.bound with
      | none => (h1, [])
      | some p =>
        let h2 : HubState := { h1 with peers := mapDelete h1.peers p }
        (h2, broadcastToOthers h2 p (.peerDisconnected p))

/-- Run the hub over an input trace, accumulating writes. -/
def runHub (h : HubState) (inputs : List HubInput) :
    HubState × List HubEvent :=
  inputs.foldl
    (fun acc i =>
      let r := hubStep acc.1 i
      (r.1, acc.2 ++ r.2))
    (h, [])

/-- Body of `POST /gateway/submit` (`main.js`, lines 196-258), fields as
JSON-parsed: `none` models an absent field; `some ""` a present empty
string. -/
structure GatewayReq where
  encryptedPayload : Option String
  wrappedKey : Option String
  msgId : Option String
  from_ : Option String
  meta : Option (List (String × String))
deriving DecidableEq

/-- JS falsiness of an optional string field: absent, or the empty string. -/
def falsy (o : Option String) : Bool :=
  match o with
  | none => true
  | some s => s == ""

/-- Outcome of one `POST /gateway/submit`: the HTTP response, the two
synthesised envelopes, the session ids each was written to (the key fan-out
runs `keyDelayMs` milliseconds later via `setTimeout`). -/
structure GwResult where
  status : Nat
  error : Option String
  success : Bool
  msgIdOut : Option String
  envOut : Option MessageEnvelope
  keyOut : Option KeyEnvelope
  envTargets : List Nat
  keyTargets : List Nat
  keyDelayMs : Nat
deriving DecidableEq

/-- Sessions the gateway writes to: every entry of the `peers` map whose
socket is open — no sender to exclude (`main.js`, lines 231-235, 246-250). -/
def openSids (h : HubState) : List Nat :=
  h.peers.filterMap fun pr =>
    if isOpenSid h pr.2 = true then some pr.2 else none

/-- `expressApp.post('/gateway/submit')` (`main.js`, lines 196-258): reject
with 400 when any of the three required fields is falsy (absent or empty);
otherwise synthesise the envelope pair, fan the message envelope out to all
open peers, schedule the key envelope fan-out 100 ms later, and respond
`200 {success:true, msgId}`.  The key fan-out is evaluated here against the
same peer snapshot. -/
def gatewaySubmit (h : HubState) (req : GatewayReq) (now : Nat) : GwResult :=
  if falsy req.encryptedPayload || falsy req.wrappedKey || falsy req.msgId then
    { status := 400
      error := some "Missing required fields"
      success := false
      msgIdOut := none
      envOut := none
      keyOut := none
      envTargets := []
      keyTargets := []
      keyDelayMs := 0 }
  else
    let mid := req.msgId.getD ""
    let sender := if falsy req.from_ then "gateway_user" else req.from_.getD ""
    let env : MessageEnvelope :=
      { msg_id := mid
        type := .e2e
        from_ := sender
        to_ := "admin"
        timestamp := now
        ttl := 8
        hops := [⟨"gateway", now⟩]
        payload := .raw (req.encryptedPayload.getD "")
        meta := req.meta.getD [] }
    let key : KeyEnvelope :=
      { msg_id := mid
        from_ := sender
        to_ := "admin"
        wrapped_key := .raw (req.wrappedKey.getD "")
        algorithm := "x25519+aes-256-gcm" }
    { status := 200
      error := none
      success := true
      msgIdOut := some mid
      envOut := some env
      keyOut := some key
      envTargets := openSids h
      keyTargets := openSids h
      keyDelayMs := 100 }

/-- A fresh non-admin node `A`. -/
def node0 : NodeState :=
  { nodeId := "A"
    pseudoId := "user_A"
    isAdmin := false
    adminPub := none
    adminPriv := none
    broadcasts := []
    messageMesh := []
    keyMesh := []
    decrypted := []
    dedupe := []
    peers := []
    reconnectAttempts := 0 }

/-- A fresh admin node `Z` holding the admin key pair (private key 7). -/
def adminZ : NodeState :=
  { node0 with
    nodeId := "Z"
    pseudoId := "user_Z"
    isAdmin := true
    adminPub := some (pubOf 7)
    adminPriv := some 7 }

/-- The e2e envelope of scenario S4: sender `S` encrypts `"evacuate"` under
session key 99 for the admin. -/
def envM4 : MessageEnvelope :=
  { msg_id := "m4"
    type := .e2e
    from_ := "user_S"
    to_ := "admin"
    timestamp := 0
    ttl := 8
    hops := [⟨"S", 0⟩]
    payload := .cipher "evacuate" 99
    meta := [] }

/-- The matching key envelope of scenario S4: session key 99 wrapped to the
admin public key. -/
def keyM4 : KeyEnvelope :=
  { msg_id := "m4"
    from_ := "user_S"
    to_ := "admin"
    wrapped_key := .wrapped 99 (pubOf 7)
    algorithm := "x25519+aes-256-gcm" }

/-- A broadcast envelope originated by node `A`. -/
def envMA : MessageEnvelope :=
  { msg_id := "mA"
    type := .broadcast
    from_ := "user_A"
    to_ := "all"
    timestamp := 0
    ttl := 8
    hops := [⟨"A", 0⟩]
    payload := .raw "hi"
    meta := [] }

/-- Scenario S3: a broadcast received with `ttl = 1`. -/
def envT1 : MessageEnvelope :=
  { msg_id := "t1"
    type := .broadcast
    from_ := "user_B"
    to_ := "all"
    timestamp := 0
    ttl := 1
    hops := [⟨"B", 0⟩]
    payload := .raw "x"
    meta := [] }

/-- A broadcast envelope used to instantiate the forwarding rule. -/
def envW4 : MessageEnvelope :=
  { msg_id := "w4"
    type := .broadcast
    from_ := "user_B"
    to_ := "all"
    timestamp := 0
    ttl := 5
    hops := [⟨"B", 0⟩]
    payload := .raw "y"
    meta := [] }

/-- A non-admin origin that knows the admin public key (can send e2e). -/
def nodeW : NodeState :=
  { node0 with adminPub := some 3 }

/-- The empty hub. -/
def hub0 : HubState := { sessions := [], peers := [] }

/-- Hub after sessions 1 and 2 connect and both register peer id `p`. -/
def hubDoubleReg : HubState :=
  (runHub hub0
    [.connect 1, .connect 2,
     .frame 1 (.register "p"), .frame 2 (.register "p")]).1

/-- Hub after session 1 connects and registers twice, as `p1` then `p2`. -/
def hubRebound : HubState :=
  (runHub hub0
    [.connect 1, .frame 1 (.register "p1"), .frame 1 (.register "p2")]).1

/-- A mesh envelope fanned out in the hub scenarios. -/
def envHub : OutEnv := .msg envMA

/-- A two-peer hub used to instantiate the fan-out rule. -/
def hubW : HubState :=
  { sessions := [⟨1, true, some "a"⟩, ⟨2, true, some "b"⟩]
    peers := [("a", 1), ("b", 2)] }

/-- Gateway request whose `encryptedPayload` is present but empty. -/
def reqEmptyPayload : GatewayReq :=
  { encryptedPayload := some ""
    wrappedKey := some "wk"
    msgId := some "m7"
    from_ := none
    meta := none }

/-- A complete gateway request. -/
def reqGood : GatewayReq :=
  { encryptedPayload := some "ct"
    wrappedKey := some "wk"
    msgId := some "m8"
    from_ := some "alice"
    meta := some [("name", "alice")] }

/-! Helper lemmas: `tryDecryptMessage` only ever appends to `decrypted`. -/

theorem tryDecryptMessage_messageMesh (s : NodeState) (now : Nat) (mid : String) :
    (tryDecryptMessage s now mid).messageMesh = s.messageMesh := by
  unfold tryDecryptMessage
  repeat' split
  all_goals rfl

theorem tryDecryptMessage_keyMesh (s : NodeState) (now : Nat) (mid : String) :
    (tryDecryptMessage s now mid).keyMesh = s.keyMesh := by
  unfold tryDecryptMessage
  repeat' split
  all_goals rfl

theorem tryDecryptMessage_dedupe (s : NodeState) (now : Nat) (mid : String) :
    (tryDecryptMessage s now mid).dedupe = s.dedupe := by
  unfold tryDecryptMessage
  repeat' split
  all_goals rfl

theorem e2eOnMessage_messageMesh (s : NodeState) (now : Nat) (m : MessageEnvelope) :
    (e2eOnMessage s now m).messageMesh = s.messageMesh := by
  unfold e2eOnMessage
  split
  · exact tryDecryptMessage_messageMesh s now m.msg_id
  · rfl

theorem e2eOnMessage_keyMesh (s : NodeState) (now : Nat) (m : MessageEnvelope) :
    (e2eOnMessage s now m).keyMesh = s.keyMesh := by
  unfold e2eOnMessage
  split
  · exact tryDecryptMessage_keyMesh s now m.msg_id
  · rfl

theorem e2eOnMessage_dedupe (s : NodeState) (now : Nat) (m : MessageEnvelope) :
    (e2eOnMessage s now m).dedupe = s.dedupe := by
  unfold e2eOnMessage
  split
  · exact tryDecryptMessage_dedupe s now m.msg_id
  · rfl

theorem e2eOnKey_messageMesh (s : NodeState) (now : Nat) (k : KeyEnvelope) :
    (e2eOnKey s now k).messageMesh = s.messageMesh := by
  unfold e2eOnKey
  split
  · exact tryDecryptMessage_messageMesh s now k.msg_id
  · rfl

theorem e2eOnKey_keyMesh (s : NodeState) (now : Nat) (k : KeyEnvelope) :
    (e2eOnKey s now k).keyMesh = s.keyMesh := by
  unfold e2eOnKey
  split
  · exact tryDecryptMessage_keyMesh s now k.msg_id
  · rfl

theorem e2eOnKey_dedupe (s : NodeState) (now : Nat) (k : KeyEnvelope) :
    (e2eOnKey s now k).dedupe = s.dedupe := by
  unfold e2eOnKey
  split
  · exact tryDecryptMessage_dedupe s now k.msg_id
  · rfl

/-! Helper lemmas about the JS-Map model used by the hub. -/

theorem lookup_replace_self (m : List (String × Nat)) (k : String) (v : Nat)
    (h : m.any (fun pr => pr.1 == k) = true) :
    mapLookup (m.map (fun pr => if pr.1 == k then (k, v) else pr)) k = some v := by
  induction m with
  | nil => simp at h
  | cons pr t ih =>
    simp only [mapLookup] at ih ⊢
    simp only [List.map_cons]
    by_cases hk : (pr.1 == k) = true
    · rw [if_pos hk]
      simp only [List.find?_cons, beq_self_eq_true, Option.map_some']
    · have hk2 : (pr.1 == k) = false := by simpa using hk
      have h' : t.any (fun pr => pr.1 == k) = true := by
        rw [List.any_cons, hk2, Bool.false_or] at h
        exact h
      rw [if_neg hk]
      simp only [List.find?_cons, hk2]
      exact ih h'

theorem lookup_append_self (m : List (String × Nat)) (k : String) (v : Nat)
    (h : m.any (fun pr => pr.1 == k) = false) :
    mapLookup (m ++ [(k, v)]) k = some v := by
  induction m with
  | nil =>
    simp only [List.nil_append, mapLookup, List.find?_cons, beq_self_eq_true,
      Option.map_some']
  | cons pr t ih =>
    rw [List.any_cons, Bool.or_eq_false_iff] at h
    simp only [mapLookup] at ih ⊢
    simp only [List.cons_append, List.find?_cons, h.1]
    exact ih h.2

theorem mapLookup_mapSet_self (m : List (String × Nat)) (k : String) (v : Nat) :
    mapLookup (mapSet m k v) k = some v := by
  unfold mapSet
  split
  · rename_i h
    exact lookup_replace_self m k v h
  · rename_i h
    exact lookup_append_self m k v (by rwa [Bool.not_eq_true] at h)

theorem lookup_replace_other (m : List (String × Nat)) (k k' : String)
    (v : Nat) (hne : k' ≠ k) :
    mapLookup (m.map (fun pr => if pr.1 == k then (k, v) else pr)) k' =
      mapLookup m k' := by
  induction m with
  | nil => rfl
  | cons pr t ih =>
    have h2 : (k == k') = false := beq_eq_false_iff_ne.mpr (fun h => hne h.symm)
    simp only [mapLookup] at ih ⊢
    simp only [List.map_cons]
    by_cases hk : (pr.1 == k) = true
    · have h1 : pr.1 = k := by simpa using hk
      have h3 : (pr.1 == k') = false := by rw [h1]; exact h2
      rw [if_pos hk]
      simp only [List.find?_cons, h2, h3]
      exact ih
    · rw [if_neg hk]
      by_cases hk' : (pr.1 == k') = true
      · simp only [List.find?_cons, hk']
      · have hk'2 : (pr.1 == k') = false := by simpa using hk'
        simp only [List.find?_cons, hk'2]
        exact ih

theorem lookup_append_other (m : List (String × Nat)) (k k' : String)
    (v : Nat) (hne : k' ≠ k) :
    mapLookup (m ++ [(k, v)]) k' = mapLookup m k' := by
  have h2 : (k == k') = false := beq_eq_false_iff_ne.mpr (fun h => hne h.symm)
  induction m with
  | nil =>
    simp only [List.nil_append, mapLookup, List.find?_cons, h2, List.find?_nil,
      Option.map_none']
  | cons pr t ih =>
    simp only [mapLookup] at ih ⊢
    by_cases hk' : (pr.1 == k') = true
    · simp only [List.cons_append, List.find?_cons, hk']
    · have hk'2 : (pr.1 == k') = false := by simpa using hk'
      simp only [List.cons_append, List.find?_cons, hk'2]
      exact ih

theorem mapLookup_mapSet_other (m : List (String × Nat)) (k k' : String)
    (v : Nat) (hne : k' ≠ k) :
    mapLookup (mapSet m k v) k' = mapLookup m k' := by
  unfold mapSet
  split
  · exact lookup_replace_other m k k' v hne
  · exact lookup_append_other m k k' v hne

theorem findSession_setBound (ss : List Session) (sid : Nat) (p : String)
    (t : Session) (h : ss.find? (fun u => u.sid == sid) = some t) :
    (setBound ss sid p).find? (fun u => u.sid == sid) =
      some { t with bound := some p } := by
  induction ss with
  | nil => simp at h
  | cons u rest ih =>
    simp only [setBound, List.map_cons] at ih ⊢
    by_cases hu : (u.sid == sid) = true
    · simp only [List.find?_cons, hu] at h
      have hut : u = t := Option.some.inj h
      subst hut
      rw [if_pos hu]
      simp only [List.find?_cons, hu]
    · have hu2 : (u.sid == sid) = false := by simpa using hu
      simp only [List.find?_cons, hu2] at h
      rw [if_neg hu]
      simp only [List.find?_cons, hu2]
      exact ih h

theorem setBound_sid_open (ss : List Session) (sid : Nat) (p : String) :
    (setBound ss sid p).map (fun u => (u.sid, u.openFlag)) =
      ss.map (fun u => (u.sid, u.openFlag)) := by
  induction ss with
  | nil => rfl
  | cons u rest ih =>
    simp only [setBound, List.map_cons] at ih ⊢
    by_cases hu : (u.sid == sid) = true
    · rw [if_pos hu]
      exact congrArg _ ih
    · rw [if_neg hu]
      exact congrArg _ ih

/-- Claim C1 (code bug): the spec expects that an admin node receiving both
the MessageEnvelope and the KeyEnvelope for the same `msg_id`, in either
order, produces exactly one DecryptedMessage.  The code shares one dedupe
store between `handleMessageEnvelope` and `handleKeyEnvelope`, keyed on the
shared `msg_id`, so the envelope arriving second is dropped unprocessed and
unsaved: in both arrival orders the admin stores zero DecryptedMessages. -/
theorem C1_join_drops_second_envelope :
    ((runNode adminZ [(1, .recvMessage envM4), (2, .recvKey keyM4)]).1.decrypted =
        [] ∧
      (runNode adminZ [(1, .recvMessage envM4), (2, .recvKey keyM4)]).1.keyMesh =
        []) ∧
    ((runNode adminZ [(1, .recvKey keyM4), (2, .recvMessage envM4)]).1.decrypted =
        [] ∧
      (runNode adminZ
          [(1, .recvKey keyM4), (2, .recvMessage envM4)]).1.messageMesh = []) := by
  decide

/-- Claim C2 (code bug): the spec asserts at most one DecryptedMessage per
`msg_id` per admin node (idempotent emission).  `tryDecryptMessage` has no
such guard: when an admin node originates an e2e message, `createE2EMessage`
saves both envelopes and then fires the message handlers and the key handlers,
and each pass finds both envelopes stored and appends a DecryptedMessage —
two emissions for one `msg_id`. -/
theorem C2_origin_admin_double_emission :
    (runNode adminZ [(0, .localCreateE2E "evacuate" [] 99 "m9")]).1.decrypted.length =
      2 ∧
    ∀ d ∈ (runNode adminZ [(0, .localCreateE2E "evacuate" [] 99 "m9")]).1.decrypted,
      d.msg_id = "m9" ∧ d.content = "evacuate" := by
  decide

/-- Claim C3 (code bug): the spec asserts each node's message handlers fire
at most once per `msg_id`.  `broadcastMessage` fires the local handlers but
never marks the dedupe store, so when a forwarded copy of the node's own
message returns from the mesh, `handleMessageEnvelope` does not recognise it
and fires the handlers a second time. -/
theorem C3_origin_handlers_fire_twice :
    deliveryCount
      (runNode node0
        [(0, .localBroadcast envMA), (1, .recvMessage (addHop "B" 1 envMA))]).2
      "mA" = 2 := by
  decide

/-- Claim C6 (code bug): on close the relay is supposed to notify the
peer-lost observers once per previously-known peer.  The source clears the
peer set before iterating it, so with peers `p1, p2` known the close handler
emits no peer-lost notification at all; the 3-second reconnect (and the cap
of 10 attempts) behaves as claimed. -/
theorem C6_close_notifies_nobody :
    ((wsOnClose { node0 with peers := ["p1", "p2"] }).2 =
        [NodeEvent.scheduleReconnect 3000] ∧
      (wsOnClose { node0 with peers := ["p1", "p2"] }).1.peers = [] ∧
      (wsOnClose { node0 with peers := ["p1", "p2"] }).1.reconnectAttempts = 1) ∧
    (wsOnClose
        { node0 with peers := ["p1", "p2"], reconnectAttempts := 10 }).2 = [] := by
  decide

/-- Claim C4 counterexample: an envelope received with `ttl = 1` is claimed
to be delivered locally but not forwarded.  The code forwards it: the gate is
the received (pre-decrement) ttl, so a forwarded copy with `ttl = 0` is
re-emitted to the hub. -/
theorem C4_ttl_one_is_forwarded :
    deliveryCount (handleMessageEnvelope node0 5 envT1).2 "t1" = 1 ∧
    sentMeshEnvs (handleMessageEnvelope node0 5 envT1).2 = [addHop "A" 5 envT1] ∧
    (addHop "A" 5 envT1).ttl = 0 := by
  decide

/-- Claim C5 counterexample: after sessions 1 and 2 both register peer id
`p`, session 1 is still open (the claim says it is closed first), and after a
bound session re-registers under a second id the map holds both ids for the
one session (the claim says the re-register is rejected) — the peers map and
the open registered sessions are not in one-to-one correspondence. -/
theorem C5_register_counterexample :
    (isOpenSid hubDoubleReg 1 = true ∧ boundOf hubDoubleReg 1 = some "p" ∧
      mapLookup hubDoubleReg.peers "p" = some 2) ∧
    (boundOf hubRebound 1 = some "p2" ∧
      hubRebound.peers = [("p1", 1), ("p2", 1)]) := by
  decide

/-- Claim C8 counterexample: the hub excludes recipients by peer id, not by
session, so a session registered under two peer ids receives its own
`mesh_message` frame back — the claim says the hub never echoes to the
session the frame came from. -/
theorem C8_echo_to_sender :
    boundOf hubRebound 1 = some "p2" ∧
    (hubStep hubRebound (.frame 1 (.meshMessage envHub none))).2 =
      [HubEvent.send 1 (.meshMessage envHub "p2" none)] := by
  decide

/-- Claim C9 counterexample: a request whose `encryptedPayload` is present
but empty is not missing any field, yet the gateway answers 400 — JS
truthiness conflates empty strings with absent fields. -/
theorem C9_empty_field_rejected :
    reqEmptyPayload.encryptedPayload ≠ none ∧
    reqEmptyPayload.wrappedKey ≠ none ∧
    reqEmptyPayload.msgId ≠ none ∧
    (gatewaySubmit hub0 reqEmptyPayload 0).status = 400 ∧
    (gatewaySubmit hub0 reqEmptyPayload 0).envOut = none := by
  decide

/-- Claim C4 (amended): a node re-emits a forwarded copy exactly when the
received (pre-decrement) `ttl` is strictly positive; the forwarded copy
carries `ttl - 1`, which is never negative and always strictly below the
received value — so `ttl` never exceeds its value at origin and never goes
below zero, but an envelope received with `ttl = 1` is both delivered and
forwarded once, with `ttl = 0`. -/
theorem C4_forward_pre_decrement (s : NodeState) (now : Nat)
    (m : MessageEnvelope) (hdup : isDuplicate s m.msg_id = false) :
    sentMeshEnvs (handleMessageEnvelope s now m).2 =
      (if 0 < m.ttl then [addHop s.nodeId now m] else []) ∧
    ∀ f ∈ sentMeshEnvs (handleMessageEnvelope s now m).2,
      f.ttl = m.ttl - 1 ∧ 0 ≤ f.ttl ∧ f.ttl < m.ttl := by
  have hsent : sentMeshEnvs (handleMessageEnvelope s now m).2 =
      (if 0 < m.ttl then [addHop s.nodeId now m] else []) := by
    simp only [handleMessageEnvelope, hdup, Bool.false_eq_true, if_false]
    by_cases hpos : 0 < m.ttl
    · simp [sentMeshEnvs, hpos]
    · simp [sentMeshEnvs, hpos]
  refine ⟨hsent, ?_⟩
  intro f hf
  rw [hsent] at hf
  by_cases hpos : 0 < m.ttl
  · rw [if_pos hpos] at hf
    have hfe : f = addHop s.nodeId now m := by simpa using hf
    subst hfe
    refine ⟨rfl, ?_, ?_⟩ <;> simp only [addHop] <;> omega
  · rw [if_neg hpos] at hf
    cases hf

/-- Witness for C4 at a concrete envelope with `ttl = 5`. -/
theorem C4_forward_pre_decrement_witness :
    isDuplicate node0 envW4.msg_id = false ∧
    sentMeshEnvs (handleMessageEnvelope node0 0 envW4).2 =
      (if 0 < envW4.ttl then [addHop node0.nodeId 0 envW4] else []) := by
  refine ⟨by decide, ?_⟩
  exact (C4_forward_pre_decrement node0 0 envW4 (by decide)).1

/-- Claim C5 (amended): a `register` frame from an open session rebinds that
session's peer id (a second register is accepted, not rejected) and points
the peers-map entry for the registered id at this session — last write wins
in the map — while every other map entry and every session's open flag are
left unchanged; in particular a session previously bound to the same peer id
is not closed, so the peers map and the open registered sessions need not
stay in one-to-one correspondence. -/
theorem C5_register_is_map_overwrite (h : HubState) (sid : Nat) (p : String)
    (t : Session) (hfind : findSession h sid = some t)
    (hopen : t.openFlag = true) :
    boundOf (hubStep h (.frame sid (.register p))).1 sid = some p ∧
    mapLookup (hubStep h (.frame sid (.register p))).1.peers p = some sid ∧
    (∀ q, q ≠ p →
      mapLookup (hubStep h (.frame sid (.register p))).1.peers q =
        mapLookup h.peers q) ∧
    (hubStep h (.frame sid (.register p))).1.sessions.map
        (fun u => (u.sid, u.openFlag)) =
      h.sessions.map (fun u => (u.sid, u.openFlag)) := by
  have hstep : (hubStep h (.frame sid (.register p))).1 =
      { sessions := setBound h.sessions sid p
        peers := mapSet h.peers p sid } := by
    unfold hubStep
    dsimp only
    rw [hfind]
    simp [hopen]
  rw [hstep]
  refine ⟨?_, mapLookup_mapSet_self h.peers p sid,
    fun q hq => mapLookup_mapSet_other h.peers p q sid hq,
    setBound_sid_open h.sessions sid p⟩
  unfold findSession at hfind
  unfold boundOf findSession
  rw [findSession_setBound h.sessions sid p t hfind]
  rfl

/-- Witness for C5: session 2 of the two-peer hub re-registers as `c`. -/
theorem C5_register_is_map_overwrite_witness :
    boundOf (hubStep hubW (.frame 2 (.register "c"))).1 2 = some "c" ∧
    mapLookup (hubStep hubW (.frame 2 (.register "c"))).1.peers "c" = some 2 := by
  have h := C5_register_is_map_overwrite hubW 2 "c" ⟨2, true, some "b"⟩
    (by decide) (by decide)
  exact ⟨h.1, h.2.1⟩

/-- Claim C7: the dedupe store holds at most 1000 entries at all times —
`markAsProcessed` inserts the id only if absent, appends it at the tail when
there is room, and when the insertion would push the size past 1000 it drops
exactly the oldest entry, leaving the rest and their relative order
unchanged. -/
theorem C7_dedupe_bound_and_fifo (d : List String) (x : String)
    (h : d.length ≤ 1000) :
    (markAsProcessed d x).length ≤ 1000 ∧
    (d.contains x = true → markAsProcessed d x = d) ∧
    (d.contains x = false → d.length < 1000 → markAsProcessed d x = d ++ [x]) ∧
    (d.contains x = false → d.length = 1000 →
      markAsProcessed d x = d.tail ++ [x]) := by
  by_cases hc : d.contains x = true
  · have he : markAsProcessed d x = d := by
      unfold markAsProcessed
      rw [if_pos hc]
    refine ⟨by rw [he]; exact h, fun _ => he, fun hfalse _ => ?_,
      fun hfalse _ => ?_⟩ <;>
      (rw [hfalse] at hc; exact Bool.noConfusion hc)
  · have hc2 : d.contains x = false := by simpa using hc
    by_cases hl : d.length = 1000
    · have hcond : (d ++ [x]).length > 1000 := by
        simp [hl]
      have hval : markAsProcessed d x = (d ++ [x]).tail := by
        unfold markAsProcessed
        rw [if_neg hc, if_pos hcond]
      have htail : (d ++ [x]).tail = d.tail ++ [x] := by
        cases d with
        | nil => simp at hl
        | cons a rest => rfl
      refine ⟨?_, fun hct => ?_, fun _ hlt => ?_, fun _ _ => by rw [hval, htail]⟩
      · rw [hval]
        simp only [List.length_tail, List.length_append, List.length_cons,
          List.length_nil]
        omega
      · rw [hct] at hc2
        exact Bool.noConfusion hc2
      · omega
    · have hlt : d.length < 1000 := by omega
      have hval : markAsProcessed d x = d ++ [x] := by
        unfold markAsProcessed
        rw [if_neg hc, if_neg (by simp; omega)]
      refine ⟨?_, fun hct => ?_, fun _ _ => hval, fun _ hl1000 => ?_⟩
      · rw [hval]
        simp only [List.length_append, List.length_cons, List.length_nil]
        omega
      · rw [hct] at hc2
        exact Bool.noConfusion hc2
      · omega

/-- Witness for C7 at a one-entry store. -/
theorem C7_dedupe_bound_and_fifo_witness :
    markAsProcessed ["a"] "b" = ["a"] ++ ["b"] ∧
    (markAsProcessed ["a"] "b").length ≤ 1000 := by
  have h := C7_dedupe_bound_and_fifo ["a"] "b" (by decide)
  exact ⟨h.2.2.1 (by decide) (by decide), h.1⟩

/-- Claim C8 (amended): for a `mesh_message` frame from a registered open
session the hub state is unchanged and the hub sends the frame — envelope
passed through unmodified — to exactly the peers-map entries whose peer id
differs from the sender's currently bound peer id and whose socket is open;
provided the sender's session appears in the map only under its own bound
peer id (true whenever no session registers twice), no frame is sent back to
the session the frame came from. -/
theorem C8_fanout_excludes_by_peer_id (h : HubState) (sid : Nat) (t : Session)
    (p : String) (env : OutEnv) (et : Option String)
    (hfind : findSession h sid = some t) (hopen : t.openFlag = true)
    (hbound : t.bound = some p) :
    (hubStep h (.frame sid (.meshMessage env et))).1 = h ∧
    (hubStep h (.frame sid (.meshMessage env et))).2 =
      broadcastToOthers h p (.meshMessage env p et) ∧
    ((∀ pr ∈ h.peers, pr.2 = sid → pr.1 = p) →
      ∀ f, HubEvent.send sid f ∉ (hubStep h (.frame sid (.meshMessage env et))).2) := by
  have hstep : hubStep h (.frame sid (.meshMessage env et)) =
      (h, broadcastToOthers h p (.meshMessage env p et)) := by
    unfold hubStep
    dsimp only
    rw [hfind]
    simp [hopen, hbound]
  rw [hstep]
  refine ⟨rfl, rfl, ?_⟩
  intro hinj f hmem
  unfold broadcastToOthers at hmem
  rw [List.mem_filterMap] at hmem
  obtain ⟨pr, hpr, heq⟩ := hmem
  by_cases hcond : pr.1 ≠ p ∧ isOpenSid h pr.2 = true
  · rw [if_pos hcond] at heq
    have h1 := Option.some.inj heq
    injection h1 with h2 h3
    exact hcond.1 (hinj pr hpr h2)
  · rw [if_neg hcond] at heq
    exact Option.noConfusion heq

/-- Witness for C8 on the two-peer hub: session 1 (bound `a`) sends; only
session 2 receives. -/
theorem C8_fanout_excludes_by_peer_id_witness :
    (hubStep hubW (.frame 1 (.meshMessage envHub none))).2 =
      broadcastToOthers hubW "a" (.meshMessage envHub "a" none) ∧
    HubEvent.send 1 (.meshMessage envHub "a" none) ∉
      (hubStep hubW (.frame 1 (.meshMessage envHub none))).2 := by
  have h := C8_fanout_excludes_by_peer_id hubW 1 ⟨1, true, some "a"⟩ "a"
    envHub none (by decide) (by decide) (by decide)
  exact ⟨h.2.1, h.2.2 (by decide) _⟩

/-- Claim C9 (amended): `POST /gateway/submit` responds 400 with an error
body whenever any of `encryptedPayload`, `wrappedKey`, `msgId` is missing
*or empty* (JS truthiness); otherwise it synthesises a MessageEnvelope with
`type = e2e`, `from` the submitted non-empty `from` or `"gateway_user"`,
`to = "admin"`, `ttl = 8` and the single hop `{nodeId := "gateway", now}`,
fans it out to every open connected peer, schedules the KeyEnvelope with the
same `msgId` for the same peers 100 ms later, and responds
`200 {success := true, msgId}`. -/
theorem C9_gateway_rules (h : HubState) (req : GatewayReq) (now : Nat) :
    ((falsy req.encryptedPayload = true ∨ falsy req.wrappedKey = true ∨
        falsy req.msgId = true) →
      (gatewaySubmit h req now).status = 400 ∧
      (gatewaySubmit h req now).error.isSome = true ∧
      (gatewaySubmit h req now).envOut = none) ∧
    (falsy req.encryptedPayload = false → falsy req.wrappedKey = false →
      falsy req.msgId = false →
      (gatewaySubmit h req now).status = 200 ∧
      (gatewaySubmit h req now).success = true ∧
      (gatewaySubmit h req now).msgIdOut = req.msgId ∧
      (gatewaySubmit h req now).envOut = some
        { msg_id := req.msgId.getD ""
          type := .e2e
          from_ := if falsy req.from_ then "gateway_user" else req.from_.getD ""
          to_ := "admin"
          timestamp := now
          ttl := 8
          hops := [⟨"gateway", now⟩]
          payload := .raw (req.encryptedPayload.getD "")
          meta := req.meta.getD [] } ∧
      (gatewaySubmit h req now).keyOut = some
        { msg_id := req.msgId.getD ""
          from_ := if falsy req.from_ then "gateway_user" else req.from_.getD ""
          to_ := "admin"
          wrapped_key := .raw (req.wrappedKey.getD "")
          algorithm := "x25519+aes-256-gcm" } ∧
      (gatewaySubmit h req now).envTargets = openSids h ∧
      (gatewaySubmit h req now).keyTargets = openSids h ∧
      (gatewaySubmit h req now).keyDelayMs = 100) := by
  constructor
  · intro hf
    have hcond : (falsy req.encryptedPayload || falsy req.wrappedKey ||
        falsy req.msgId) = true := by
      rcases hf with h1 | h1 | h1 <;> simp [h1]
    unfold gatewaySubmit
    rw [if_pos hcond]
    exact ⟨rfl, rfl, rfl⟩
  · intro h1 h2 h3
    have hcond : (falsy req.encryptedPayload || falsy req.wrappedKey ||
        falsy req.msgId) = false := by
      simp [h1, h2, h3]
    have hmid : req.msgId = some (req.msgId.getD "") := by
      cases hm : req.msgId with
      | none => rw [hm] at h3; exact Bool.noConfusion h3
      | some s => rfl
    unfold gatewaySubmit
    rw [if_neg (by rw [hcond]; exact Bool.false_ne_true)]
    refine ⟨rfl, rfl, hmid.symm, rfl, rfl, rfl, rfl, rfl⟩

/-- Witness for C9 at the complete request `reqGood`. -/
theorem C9_gateway_rules_witness :
    (gatewaySubmit hubW reqGood 3).status = 200 ∧
    (gatewaySubmit hubW reqGood 3).msgIdOut = reqGood.msgId ∧
    (gatewaySubmit hubW reqGood 3).keyDelayMs = 100 := by
  have h := (C9_gateway_rules hubW reqGood 3).2 (by decide) (by decide)
    (by decide)
  exact ⟨h.1, h.2.2.1, h.2.2.2.2.2.2.2⟩

/-- Claim C10: a successful `createE2EMessage` appends the new
MessageEnvelope to the `messageMesh` log twice and the new KeyEnvelope to the
`keyMesh` log twice — once by its own direct save and once more inside
`broadcastMessage` / `broadcastKeyEnvelope` — and leaves the dedupe store
untouched, so neither copy is marked as processed. -/
theorem C10_create_saves_twice (s : NodeState) (now : Nat) (content : String)
    (meta : List (String × String)) (sk : Nat) (mid : String) (pub : Nat)
    (hpub : s.adminPub = some pub) :
    (createE2EMessage s now content meta sk mid).1.messageMesh =
      s.messageMesh ++
        [createE2EMessageEnvelope s.nodeId s.pseudoId now
            (Payload.cipher content sk) meta mid,
          createE2EMessageEnvelope s.nodeId s.pseudoId now
            (Payload.cipher content sk) meta mid] ∧
    (createE2EMessage s now content meta sk mid).1.keyMesh =
      s.keyMesh ++
        [createKeyEnvelope s.pseudoId mid (WrappedKey.wrapped sk pub),
          createKeyEnvelope s.pseudoId mid (WrappedKey.wrapped sk pub)] ∧
    (createE2EMessage s now content meta sk mid).1.dedupe = s.dedupe := by
  unfold createE2EMessage
  rw [hpub]
  simp only [broadcastMessage, broadcastKeyEnvelope]
  refine ⟨?_, ?_, ?_⟩
  · simp [e2eOnKey_messageMesh, e2eOnMessage_messageMesh, saveKeyEnvelope,
      saveMessageEnvelope]
  · simp [e2eOnKey_keyMesh, e2eOnMessage_keyMesh, saveKeyEnvelope,
      saveMessageEnvelope]
  · simp [e2eOnKey_dedupe, e2eOnMessage_dedupe, saveKeyEnvelope,
      saveMessageEnvelope]

/-- Witness for C10 at the origin node `nodeW` (admin public key 3). -/
theorem C10_create_saves_twice_witness :
    (createE2EMessage nodeW 0 "c" [] 5 "w10").1.dedupe = [] ∧
    (createE2EMessage nodeW 0 "c" [] 5 "w10").1.messageMesh =
      [createE2EMessageEnvelope nodeW.nodeId nodeW.pseudoId 0
          (Payload.cipher "c" 5) [] "w10",
        createE2EMessageEnvelope nodeW.nodeId nodeW.pseudoId 0
          (Payload.cipher "c" 5) [] "w10"] := by
  have h := C10_create_saves_twice nodeW 0 "c" [] 5 "w10" 3 rfl
  constructor
  · rw [h.2.2]
    rfl
  · rw [h.1]
    rfl
